import Mathlib

set_option maxRecDepth 4000

/-!
Verification of the HeartLink environment-diagnostic engine.

The development shallowly embeds `backend/app/core/env_check.py` and the
colored formatter of `backend/app/cli/heartlink_cli.py`.  External effects
(subprocess invocations, the optional `torch` library, the `.env` file on
disk) are made explicit as data: a value of `Env` records what the outside
world would answer to each query the engine performs, and every function of
the source becomes a pure Lean function of that data.  Python string
operations used by the code (`strip`, `splitlines`, `startswith`,
`split("=", 1)`, `ljust`-style padding) are modelled on `List Char`, over the
ASCII whitespace subset, so that every definition is executable by the
kernel.
-/

namespace HeartLink

/-- A status record: the `{"status": ..., "detail": ...}` dictionaries that
every probe of `env_check.py` produces. -/
structure StatusDetail where
  status : String
  detail : String
  deriving DecidableEq

/-- Severity ranks, `STATUS_PRIORITY` of `env_check.py`:
`{"OK": 0, "WARN": 1, "FAIL": 2}`. -/
def STATUS_PRIORITY : List (String × Nat) := [("OK", 0), ("WARN", 1), ("FAIL", 2)]

/-- Dictionary lookup with default, `STATUS_PRIORITY.get(status, 2)`. -/
def priorityOf (s : String) : Nat := (List.lookup s STATUS_PRIORITY).getD 2

/-- Fault classes of the subprocess layer that `_run_command` catches:
`FileNotFoundError` and `subprocess.SubprocessError` (whose subclass
`TimeoutExpired` is the timeout case). -/
inductive PyExc where
  | fileNotFound (msg : String)
  | timeoutExpired (msg : String)
  | subprocessError (msg : String)
  deriving DecidableEq

/-- Textual description of a fault, `str(exc)`. -/
def pyStrExc : PyExc → String
  | .fileNotFound msg => msg
  | .timeoutExpired msg => msg
  | .subprocessError msg => msg

/-- What the subprocess layer does for one external invocation, within the
fault classes `_run_command`'s handler covers: either the process completes
with a return code and captured output streams, or the layer raises a fault
of a caught class (missing binary, exceeded timeout, or another subprocess
fault).  Faults outside the caught classes are modelled separately by
`CommandBehavior` below. -/
inductive CommandOutcome where
  | completed (returncode : Int) (stdout stderr : String)
  | raises (exc : PyExc)
  deriving DecidableEq

/-- Python `str.strip()` on a character list: drop whitespace from both ends. -/
def stripList (cs : List Char) : List Char :=
  ((cs.dropWhile Char.isWhitespace).reverse.dropWhile Char.isWhitespace).reverse

/-- Python `str.strip()` (ASCII whitespace subset). -/
def pyStrip (s : String) : String := String.mk (stripList s.data)

/-- Python `str.rstrip()`: drop whitespace from the right end only. -/
def pyRstrip (s : String) : String :=
  String.mk ((s.data.reverse.dropWhile Char.isWhitespace).reverse)

/-- Python truthiness-based `a or b` on strings: `a` when non-empty, else `b`. -/
def pyOr (a b : String) : String := if a = "" then b else a

/-- Body of the `try` block of `_run_command`: run the command, report
`returncode == 0` and the stripped stdout-else-stderr text, or propagate the
fault the subprocess layer raised. -/
def _run_command_body : CommandOutcome → Except PyExc (Bool × String)
  | .completed rc out err => .ok (rc == 0, pyOr (pyStrip out) (pyStrip err))
  | .raises e => .error e

/-- The whole of `_run_command`: the
`except (FileNotFoundError, subprocess.SubprocessError)` handler converts
every fault of the subprocess layer into `(False, str(exc))`. -/
def _run_command (c : CommandOutcome) : Bool × String :=
  match _run_command_body c with
  | .ok r => r
  | .error e => (false, pyStrExc e)

/-- What querying the imported `torch` library yields. -/
inductive TorchQuery where
  | cudaAvailable (deviceName : String)
  | cudaUnavailable
  | queryFault (msg : String)
  deriving DecidableEq

/-- Whether `importlib.util.find_spec("torch")` finds the library, and if so
what querying it yields. -/
inductive TorchEnv where
  | absent
  | present (q : TorchQuery)
  deriving DecidableEq

/-- The GPU probe `_detect_gpu_status`: query `torch` when it is importable
(converting any query fault into a WARN record), else fall back to the
`nvidia-smi` command-line tool. -/
def _detect_gpu_status (torch : TorchEnv) (nvidiaSmi : CommandOutcome) : StatusDetail :=
  match torch with
  | .present q =>
      match q with
      | .cudaAvailable deviceName => ⟨"OK", "检测到 GPU: " ++ deviceName⟩
      | .cudaUnavailable => ⟨"WARN", "检测到 PyTorch 但 CUDA 不可用，请检查驱动或 CUDA 版本。"⟩
      | .queryFault msg => ⟨"WARN", "PyTorch 存在但无法获取 GPU 信息: " ++ msg⟩
  | .absent =>
      let r := _run_command nvidiaSmi
      if r.1 then ⟨"OK", "nvidia-smi 输出: " ++ r.2⟩
      else ⟨"WARN", "未检测到 PyTorch 或 nvidia-smi，如需 GPU 请安装相关驱动。"⟩

/-- Drop everything up to and including the first occurrence of `sep`; the
empty list when `sep` does not occur (callers guard on a prefix that
contains `sep`, so Python's out-of-range indexing cannot happen there). -/
def afterFirstAux (sep : Char) : List Char → List Char
  | [] => []
  | c :: cs => if c = sep then cs else afterFirstAux sep cs

/-- Python `s.split("=", 1)[1]`: the substring after the first `=`. -/
def afterFirstEq (s : String) : String := String.mk (afterFirstAux '=' s.data)

/-- Python `s.startswith(pre)`. -/
def pyStartswith (s pre : String) : Bool := pre.data.isPrefixOf s.data

/-- Worker for `splitlines`: `cur` is the current line, reversed. -/
def splitlinesGo : List Char → List Char → List String
  | [], [] => []
  | [], cur => [String.mk cur.reverse]
  | c :: rest, cur =>
      if c = '\n' then String.mk cur.reverse :: splitlinesGo rest []
      else splitlinesGo rest (c :: cur)

/-- Python `str.splitlines()` restricted to the `\n` terminator: a final
segment without a terminator is kept, a trailing terminator adds no empty
segment, and the empty string yields no lines. -/
def pySplitlines (s : String) : List String := splitlinesGo s.data []

/-- The `for line in content.splitlines()` loop of `_check_env_file`: scan
for the first line that, stripped, starts with `OPENAI_API_KEY=`; at that
line report whether the value after the first `=` is non-empty, and stop. -/
def scanKey : List String → Bool
  | [] => false
  | line :: rest =>
      if pyStartswith (pyStrip line) "OPENAI_API_KEY=" then
        decide (afterFirstEq (pyStrip line) ≠ "")
      else scanKey rest

/-- State of the `.env` file at `config.env_path`, within the fault class
`_check_env_file`'s handler covers: missing, existing but unreadable
(`read_text` raises `OSError`), or readable with decoded content.  The
decoding fault `read_text(encoding="utf-8")` can also raise is outside the
caught class and is modelled separately by `EnvFileBytes` below. -/
inductive EnvFileState where
  | missing
  | unreadable (msg : String)
  | readable (content : String)
  deriving DecidableEq

/-- The secrets-file probe `_check_env_file`. -/
def _check_env_file : EnvFileState → StatusDetail
  | .missing => ⟨"WARN", "未找到 .env 文件，请复制 .env.example 并填写密钥。"⟩
  | .unreadable msg => ⟨"WARN", "读取 .env 文件失败: " ++ msg⟩
  | .readable content =>
      if scanKey (pySplitlines content) then ⟨"OK", "已检测到 OPENAI_API_KEY 字段。"⟩
      else ⟨"WARN", "OPENAI_API_KEY 字段缺失或未填写，请更新 .env。"⟩

/-- Everything the outside world answers during one diagnostic run: the
platform string, the runtime version, the outcome of each external command,
the torch situation, and the secrets-file state. -/
structure Env where
  systemDetail : String
  pythonVersion : String
  nodeCmd : CommandOutcome
  npmCmd : CommandOutcome
  pipCmd : CommandOutcome
  torch : TorchEnv
  nvidiaSmi : CommandOutcome
  envFile : EnvFileState
  deriving DecidableEq

/-- Worker for the newline normalization of the runtime version string. -/
def replaceNlGo : List Char → List Char
  | [] => []
  | c :: rest => (if c = '\n' then ' ' else c) :: replaceNlGo rest

/-- Python `s.replace("\n", " ")`. -/
def pyReplaceNl (s : String) : String := String.mk (replaceNlGo s.data)

/-- Python `max(xs, key=...)`: a left fold that keeps the first element of
maximal key.  `max` on an empty sequence raises; the engine always records
seven statuses before aggregating, so the empty case is unreachable junk. -/
def pyMaxBy (key : String → Nat) : List String → String
  | [] => ""
  | x :: xs => xs.foldl (fun best s => if key best < key s then s else best) x

/-- The canned summary messages, `summary_messages` of `run_env_diagnostics`. -/
def summary_messages : List (String × String) :=
  [("OK", "所有检测通过，环境准备就绪。"),
   ("WARN", "部分检测存在警告，请根据提示完善环境。"),
   ("FAIL", "检测存在失败项，请优先解决关键问题。")]

/-- The diagnostic engine `run_env_diagnostics`: the fixed battery in its
fixed order, then the aggregated trailing `summary` record.  The report is
the insertion-ordered dictionary of the source, i.e. an association list. -/
def run_env_diagnostics (env : Env) : List (String × StatusDetail) :=
  let systemRec : StatusDetail := ⟨"OK", env.systemDetail⟩
  let pythonRec : StatusDetail := ⟨"OK", pyReplaceNl env.pythonVersion⟩
  let node := _run_command env.nodeCmd
  let nodeRec : StatusDetail :=
    if node.1 then ⟨"OK", node.2⟩
    else ⟨"WARN", "未检测到 Node.js，请安装 LTS 版本以支持前端。"⟩
  let npm := _run_command env.npmCmd
  let npmRec : StatusDetail :=
    if npm.1 then ⟨"OK", npm.2⟩
    else ⟨"WARN", "未检测到 npm，请随 Node.js 一并安装。"⟩
  let pip := _run_command env.pipCmd
  let pipRec : StatusDetail :=
    if pip.1 then ⟨"OK", pip.2⟩
    else ⟨"FAIL", "未检测到 pip，请使用官方安装程序修复 Python。"⟩
  let gpuRec := _detect_gpu_status env.torch env.nvidiaSmi
  let envRec := _check_env_file env.envFile
  let status_records : List String :=
    [systemRec.status, pythonRec.status, nodeRec.status, npmRec.status,
     pipRec.status, gpuRec.status, envRec.status]
  let highest_status := pyMaxBy priorityOf status_records
  let summary_detail :=
    (List.lookup highest_status summary_messages).getD "部分检测存在未知状态，请人工确认。"
  [("system", systemRec), ("python", pythonRec), ("node", nodeRec),
   ("npm", npmRec), ("pip", pipRec), ("gpu", gpuRec), ("env_file", envRec),
   ("summary", ⟨highest_status, summary_detail⟩)]

/-- The terminal color table `COLOR_MAP` of `heartlink_cli.py`. -/
def COLOR_MAP : List (String × String) :=
  [("OK", "\x1b[92m"), ("WARN", "\x1b[93m"), ("FAIL", "\x1b[91m"), ("RESET", "\x1b[0m")]

/-- Python left-justification to a minimum width, the `:<10` format spec:
the string followed by enough spaces to reach the width. -/
def pyLjust (s : String) (w : Nat) : String :=
  s ++ String.mk (List.replicate (w - s.length) ' ')

/-- One line printed by `display_results`:
color marker, name justified to width 10, bracketed status, detail, reset. -/
def formatColoredLine (name : String) (rec : StatusDetail) : String :=
  (List.lookup rec.status COLOR_MAP).getD ((List.lookup "RESET" COLOR_MAP).getD "") ++
    pyLjust name 10 ++ " [" ++ rec.status ++ "] " ++ rec.detail ++
    (List.lookup "RESET" COLOR_MAP).getD ""

/-- The colored formatter `display_results`, as the list of lines it prints,
one per record in report order. -/
def display_results (results : List (String × StatusDetail)) : List String :=
  results.map (fun p => formatColoredLine p.1 p.2)

/-- Specification-side rollup: the maximal status by the severity order
OK < WARN < FAIL, for lists of valid statuses. -/
def specMaxStatus (l : List String) : String :=
  if "FAIL" ∈ l then "FAIL" else if "WARN" ∈ l then "WARN" else "OK"

/-- The statuses of a report, in report order. -/
def reportStatuses (r : List (String × StatusDetail)) : List String :=
  r.map (fun p => p.2.status)

/-- The status of the trailing record of a report. -/
def summaryStatus (r : List (String × StatusDetail)) : String :=
  (r.getLast?.map (fun p => p.2.status)).getD ""

/-- Specification-side color mapping: OK green, WARN yellow, FAIL red,
anything else the no-color (reset) marker. -/
def specColor (status : String) : String :=
  if status = "OK" then "\x1b[92m"
  else if status = "WARN" then "\x1b[93m"
  else if status = "FAIL" then "\x1b[91m"
  else "\x1b[0m"

/-- The line shape asserted by the specification read literally: the record
name left-PADDED (spaces added on the left) to width 10. -/
def leftPadLine (name : String) (rec : StatusDetail) : String :=
  specColor rec.status ++ (String.mk (List.replicate (10 - name.length) ' ') ++ name) ++
    " [" ++ rec.status ++ "] " ++ rec.detail ++ "\x1b[0m"

/-- The amended line shape: the record name left-justified, i.e. padded on
the right with spaces, to the fixed minimum width 10. -/
def leftJustLine (name : String) (rec : StatusDetail) : String :=
  specColor rec.status ++ pyLjust name 10 ++ " [" ++ rec.status ++ "] " ++
    rec.detail ++ "\x1b[0m"

/-- A concrete run used to instantiate the conditional theorems: node and
npm missing, pip present, no torch, no nvidia-smi, no `.env` file. -/
def sampleEnv : Env :=
  ⟨"Linux-x86_64", "3.11.0", .completed 1 "" "node: not found",
   .completed 1 "" "npm: not found", .completed 0 "pip 24.0" "",
   .absent, .raises (.fileNotFound "nvidia-smi"), .missing⟩

/-- Fault classes the code does NOT catch: `UnicodeDecodeError` from
`read_text(encoding="utf-8")` is a `ValueError`, not an `OSError`, so it
escapes the handler of `_check_env_file`; `PermissionError` from spawning a
present but non-executable binary is an `OSError`, neither a
`FileNotFoundError` nor a `subprocess.SubprocessError`, so it escapes the
handler of `_run_command`. -/
inductive PyFault where
  | unicodeDecodeError (msg : String)
  | permissionError (msg : String)
  deriving DecidableEq

/-- What the subprocess layer can do on one invocation, with the uncaught
class representable: either an outcome `_run_command`'s handler covers, or
a fault outside the caught classes. -/
inductive CommandBehavior where
  | handled (c : CommandOutcome)
  | uncaught (f : PyFault)
  deriving DecidableEq

/-- `_run_command` under the full fault alphabet: outcomes of the caught
classes yield the converted pair, while a fault outside
`(FileNotFoundError, subprocess.SubprocessError)` propagates to the
caller. -/
def _run_command_run : CommandBehavior → Except PyFault (Bool × String)
  | .handled c => .ok (_run_command c)
  | .uncaught f => .error f

/-- State of the `.env` file with the decoding outcome representable:
the bytes on disk may fail to decode as UTF-8, which raises past the
`except OSError` of `_check_env_file`. -/
inductive EnvFileBytes where
  | missing
  | osError (msg : String)
  | undecodable (msg : String)
  | decoded (content : String)
  deriving DecidableEq

/-- `_check_env_file` under the full fault alphabet: only `OSError` is
caught; a decoding fault propagates to the caller. -/
def _check_env_file_run : EnvFileBytes → Except PyFault StatusDetail
  | .missing => .ok (_check_env_file .missing)
  | .osError msg => .ok (_check_env_file (.unreadable msg))
  | .undecodable msg => .error (.unicodeDecodeError msg)
  | .decoded content => .ok (_check_env_file (.readable content))

/-- `_detect_gpu_status` under the full fault alphabet: the torch branch
catches every fault (`except Exception`), but the fallback's
`_run_command` call sits outside any handler in `_detect_gpu_status`, so
an uncaught subprocess fault propagates from there. -/
def _detect_gpu_status_run (torch : TorchEnv) (nvidiaSmi : CommandBehavior) :
    Except PyFault StatusDetail :=
  match torch with
  | .present q =>
      .ok (match q with
        | .cudaAvailable deviceName => ⟨"OK", "检测到 GPU: " ++ deviceName⟩
        | .cudaUnavailable => ⟨"WARN", "检测到 PyTorch 但 CUDA 不可用，请检查驱动或 CUDA 版本。"⟩
        | .queryFault msg => ⟨"WARN", "PyTorch 存在但无法获取 GPU 信息: " ++ msg⟩)
  | .absent => do
      let r ← _run_command_run nvidiaSmi
      if r.1 then pure ⟨"OK", "nvidia-smi 输出: " ++ r.2⟩
      else pure ⟨"WARN", "未检测到 PyTorch 或 nvidia-smi，如需 GPU 请安装相关驱动。"⟩

/-- One run's world with the uncaught fault classes representable. -/
structure EnvRun where
  systemDetail : String
  pythonVersion : String
  nodeCmd : CommandBehavior
  npmCmd : CommandBehavior
  pipCmd : CommandBehavior
  torch : TorchEnv
  nvidiaSmi : CommandBehavior
  envFile : EnvFileBytes
  deriving DecidableEq

/-- `run_env_diagnostics` under the full fault alphabet: the engine has no
handler above the probes, so an uncaught probe fault aborts the run before
any report is returned. -/
def run_env_diagnostics_run (env : EnvRun) :
    Except PyFault (List (String × StatusDetail)) := do
  let systemRec : StatusDetail := ⟨"OK", env.systemDetail⟩
  let pythonRec : StatusDetail := ⟨"OK", pyReplaceNl env.pythonVersion⟩
  let node ← _run_command_run env.nodeCmd
  let nodeRec : StatusDetail :=
    if node.1 then ⟨"OK", node.2⟩
    else ⟨"WARN", "未检测到 Node.js，请安装 LTS 版本以支持前端。"⟩
  let npm ← _run_command_run env.npmCmd
  let npmRec : StatusDetail :=
    if npm.1 then ⟨"OK", npm.2⟩
    else ⟨"WARN", "未检测到 npm，请随 Node.js 一并安装。"⟩
  let pip ← _run_command_run env.pipCmd
  let pipRec : StatusDetail :=
    if pip.1 then ⟨"OK", pip.2⟩
    else ⟨"FAIL", "未检测到 pip，请使用官方安装程序修复 Python。"⟩
  let gpuRec ← _detect_gpu_status_run env.torch env.nvidiaSmi
  let envRec ← _check_env_file_run env.envFile
  let status_records : List String :=
    [systemRec.status, pythonRec.status, nodeRec.status, npmRec.status,
     pipRec.status, gpuRec.status, envRec.status]
  let highest_status := pyMaxBy priorityOf status_records
  let summary_detail :=
    (List.lookup highest_status summary_messages).getD "部分检测存在未知状态，请人工确认。"
  pure [("system", systemRec), ("python", pythonRec), ("node", nodeRec),
    ("npm", npmRec), ("pip", pipRec), ("gpu", gpuRec), ("env_file", envRec),
    ("summary", ⟨highest_status, summary_detail⟩)]

/-- Dropping a prefix-stable predicate across an append, when the first part
does not vanish. -/
lemma dropWhile_append_pos (p : Char → Bool) (l₁ l₂ : List Char)
    (h : l₁.dropWhile p ≠ []) :
    (l₁ ++ l₂).dropWhile p = l₁.dropWhile p ++ l₂ := by
  induction l₁ with
  | nil => exact absurd rfl h
  | cons a t ih =>
      by_cases hpa : p a = true
      · rw [List.dropWhile_cons, if_pos hpa] at h
        rw [List.cons_append, List.dropWhile_cons, if_pos hpa,
          List.dropWhile_cons, if_pos hpa]
        exact ih h
      · rw [List.cons_append, List.dropWhile_cons, if_neg hpa,
          List.dropWhile_cons, if_neg hpa, List.cons_append]

/-- Dropping a predicate across an append, when the first part is consumed
entirely. -/
lemma dropWhile_append_neg (p : Char → Bool) (l₁ l₂ : List Char)
    (h : l₁.dropWhile p = []) :
    (l₁ ++ l₂).dropWhile p = l₂.dropWhile p := by
  induction l₁ with
  | nil => rfl
  | cons a t ih =>
      have hpa : p a = true := by
        by_contra hpa
        rw [List.dropWhile_cons, if_neg hpa] at h
        exact absurd h (by simp)
      rw [List.dropWhile_cons, if_pos hpa] at h
      rw [List.cons_append, List.dropWhile_cons, if_pos hpa]
      exact ih h

/-- A newline-free character stream produces a single line. -/
lemma splitlinesGo_no_newline (cs : List Char) (h : '\n' ∉ cs) :
    ∀ cur, cur ≠ [] ∨ cs ≠ [] →
      splitlinesGo cs cur = [String.mk (cur.reverse ++ cs)] := by
  induction cs with
  | nil =>
      intro cur hcur
      rcases hcur with hcur | hcur
      · cases cur with
        | nil => exact absurd rfl hcur
        | cons c t => simp [splitlinesGo]
      · exact absurd rfl hcur
  | cons c rest ih =>
      intro cur _
      have hc : c ≠ '\n' := fun hh => h (hh ▸ List.mem_cons_self c rest)
      have hrest : '\n' ∉ rest := fun hh => h (List.mem_cons_of_mem c hh)
      simp only [splitlinesGo]
      rw [if_neg hc, ih hrest (c :: cur) (Or.inl (by simp))]
      simp

/-- Splitting a non-empty newline-free string yields that string alone. -/
lemma pySplitlines_no_newline (s : String) (hne : s.data ≠ []) (h : '\n' ∉ s.data) :
    pySplitlines s = [s] := by
  unfold pySplitlines
  rw [splitlinesGo_no_newline s.data h [] (Or.inr hne)]
  rfl

/-- A list is a `isPrefixOf`-prefix of itself extended by anything. -/
lemma isPrefixOf_append_self (l₁ l₂ : List Char) : l₁.isPrefixOf (l₁ ++ l₂) = true := by
  induction l₁ with
  | nil => cases l₂ <;> rfl
  | cons a t ih => simp [List.isPrefixOf, ih]

/-- Everything after the first `=` of the key prefix is the raw remainder. -/
lemma afterFirstAux_key (rest : List Char) :
    afterFirstAux '=' ("OPENAI_API_KEY=".data ++ rest) = rest := rfl

/-- Python's `max` keeps the first element of maximal key: the chosen element
splits the list into a strictly-smaller prefix and a no-larger suffix. -/
lemma pyMaxBy_decomp (key : String → Nat) (x : String) (xs : List String) :
    ∃ m l₁ l₂, pyMaxBy key (x :: xs) = m ∧ x :: xs = l₁ ++ m :: l₂
      ∧ (∀ s ∈ l₁, key s < key m)
      ∧ (∀ s ∈ l₂, key s ≤ key m) := by
  induction xs generalizing x with
  | nil => exact ⟨x, [], [], rfl, rfl, by simp, by simp⟩
  | cons y ys ih =>
    have hstep : pyMaxBy key (x :: y :: ys)
        = pyMaxBy key ((if key x < key y then y else x) :: ys) := rfl
    by_cases h : key x < key y
    · obtain ⟨m, l₁, l₂, hm, hEq, hlt, hle⟩ := ih y
      have hval : pyMaxBy key (x :: y :: ys) = m := by rw [hstep, if_pos h, hm]
      have hym : key y ≤ key m := by
        rcases l₁ with _ | ⟨a, t⟩
        · obtain ⟨h1, -⟩ := List.cons.inj (by simpa using hEq)
          rw [h1]
        · have h1 : y = a := (List.cons.inj (by simpa using hEq)).1
          exact le_of_lt (hlt y (by rw [h1]; exact List.mem_cons_self a t))
      refine ⟨m, x :: l₁, l₂, hval, by rw [List.cons_append, ← hEq], ?_, hle⟩
      intro s hs
      rcases List.mem_cons.mp hs with rfl | hs
      · exact lt_of_lt_of_le h hym
      · exact hlt s hs
    · obtain ⟨m, l₁, l₂, hm, hEq, hlt, hle⟩ := ih x
      have hval : pyMaxBy key (x :: y :: ys) = m := by rw [hstep, if_neg h, hm]
      rcases l₁ with _ | ⟨a, t⟩
      · obtain ⟨h1, h2⟩ := List.cons.inj (by simpa using hEq)
        refine ⟨m, [], y :: ys, hval, by rw [← h1]; rfl, by simp, ?_⟩
        intro s hs
        rcases List.mem_cons.mp hs with rfl | hs
        · rw [← h1]; exact Nat.le_of_not_lt h
        · rw [h2] at hs; exact hle s hs
      · obtain ⟨h1, h2⟩ := List.cons.inj (by simpa using hEq)
        have hxm : key x < key m := by
          have h3 := hlt a (List.mem_cons_self a t)
          rwa [← h1] at h3
        refine ⟨m, x :: y :: t, l₂, hval, ?_, ?_, hle⟩
        · rw [List.cons_append, List.cons_append, ← h2]
        · intro s hs
          rcases List.mem_cons.mp hs with rfl | hs
          · exact hxm
          rcases List.mem_cons.mp hs with rfl | hs
          · exact lt_of_le_of_lt (Nat.le_of_not_lt h) hxm
          · exact hlt s (by rw [← h1]; exact List.mem_cons_of_mem x hs)

/-- The element Python's `max` picks is an element of the list. -/
lemma pyMaxBy_mem (key : String → Nat) (x : String) (xs : List String) :
    pyMaxBy key (x :: xs) ∈ x :: xs := by
  obtain ⟨m, l₁, l₂, hm, hEq, -, -⟩ := pyMaxBy_decomp key x xs
  rw [hm, hEq]
  exact List.mem_append_right l₁ (List.mem_cons_self _ l₂)

/-- The element Python's `max` picks has maximal key. -/
lemma pyMaxBy_le (key : String → Nat) (x : String) (xs : List String) :
    ∀ s ∈ x :: xs, key s ≤ key (pyMaxBy key (x :: xs)) := by
  obtain ⟨m, l₁, l₂, hm, hEq, hlt, hle⟩ := pyMaxBy_decomp key x xs
  rw [hm]
  intro s hs
  rw [hEq] at hs
  rcases List.mem_append.mp hs with hs | hs
  · exact le_of_lt (hlt s hs)
  · rcases List.mem_cons.mp hs with rfl | hs
    · exact le_rfl
    · exact hle s hs

/-- On lists of valid statuses the Python rollup agrees with the
severity-order maximum. -/
lemma pyMaxBy_valid (x : String) (xs : List String)
    (h : ∀ s ∈ x :: xs, s = "OK" ∨ s = "WARN" ∨ s = "FAIL") :
    pyMaxBy priorityOf (x :: xs) = specMaxStatus (x :: xs) := by
  have hm : pyMaxBy priorityOf (x :: xs) ∈ x :: xs := pyMaxBy_mem priorityOf x xs
  have hv := h _ hm
  have hle := pyMaxBy_le priorityOf x xs
  unfold specMaxStatus
  by_cases hF : "FAIL" ∈ x :: xs
  · rw [if_pos hF]
    have h2 := hle "FAIL" hF
    rcases hv with hv | hv | hv
    · rw [hv] at h2; simp [priorityOf, STATUS_PRIORITY, List.lookup] at h2
    · rw [hv] at h2; simp [priorityOf, STATUS_PRIORITY, List.lookup] at h2
    · exact hv
  · rw [if_neg hF]
    by_cases hW : "WARN" ∈ x :: xs
    · rw [if_pos hW]
      have h2 := hle "WARN" hW
      rcases hv with hv | hv | hv
      · rw [hv] at h2; simp [priorityOf, STATUS_PRIORITY, List.lookup] at h2
      · exact hv
      · rw [hv] at hm; exact absurd hm hF
    · rw [if_neg hW]
      rcases hv with hv | hv | hv
      · exact hv
      · rw [hv] at hm; exact absurd hm hW
      · rw [hv] at hm; exact absurd hm hF

/-- The GPU probe only ever reports OK or WARN. -/
lemma gpu_status_valid (t : TorchEnv) (c : CommandOutcome) :
    (_detect_gpu_status t c).status = "OK" ∨ (_detect_gpu_status t c).status = "WARN" := by
  cases t with
  | present q => cases q <;> simp [_detect_gpu_status]
  | absent =>
      by_cases h : (_run_command c).1 <;> simp [_detect_gpu_status, h]

/-- The secrets-file probe only ever reports OK or WARN. -/
lemma env_status_valid (e : EnvFileState) :
    (_check_env_file e).status = "OK" ∨ (_check_env_file e).status = "WARN" := by
  cases e with
  | missing => simp [_check_env_file]
  | unreadable msg => simp [_check_env_file]
  | readable content =>
      by_cases h : scanKey (pySplitlines content) <;> simp [_check_env_file, h]

/-- The trailing record's status is the Python rollup of the statuses of the
other records, by definitional unfolding of the engine. -/
lemma summary_eq (env : Env) :
    summaryStatus (run_env_diagnostics env) =
      pyMaxBy priorityOf (reportStatuses (run_env_diagnostics env).dropLast) := rfl

/-- The statuses recorded before the summary, one per probe. -/
lemma report_statuses_eq (env : Env) :
    reportStatuses (run_env_diagnostics env).dropLast =
      ["OK", "OK",
       (if (_run_command env.nodeCmd).1 then "OK" else "WARN"),
       (if (_run_command env.npmCmd).1 then "OK" else "WARN"),
       (if (_run_command env.pipCmd).1 then "OK" else "FAIL"),
       (_detect_gpu_status env.torch env.nvidiaSmi).status,
       (_check_env_file env.envFile).status] := by
  by_cases hn : (_run_command env.nodeCmd).1 <;>
    by_cases hm : (_run_command env.npmCmd).1 <;>
      by_cases hp : (_run_command env.pipCmd).1 <;>
        simp [run_env_diagnostics, reportStatuses, hn, hm, hp]

/-- Every status recorded before the summary is a valid status. -/
lemma report_statuses_valid (env : Env) :
    ∀ s ∈ reportStatuses (run_env_diagnostics env).dropLast,
      s = "OK" ∨ s = "WARN" ∨ s = "FAIL" := by
  rw [report_statuses_eq]
  intro s hs
  simp only [List.mem_cons, List.not_mem_nil, or_false] at hs
  rcases hs with rfl | rfl | rfl | rfl | rfl | rfl | rfl
  · left; rfl
  · left; rfl
  · by_cases hn : (_run_command env.nodeCmd).1 <;> simp [hn]
  · by_cases hm : (_run_command env.npmCmd).1 <;> simp [hm]
  · by_cases hp : (_run_command env.pipCmd).1 <;> simp [hp]
  · rcases gpu_status_valid env.torch env.nvidiaSmi with h | h <;> simp [h]
  · rcases env_status_valid env.envFile with h | h <;> simp [h]

/-- The summary status is itself always a valid status. -/
lemma summary_status_valid (env : Env) :
    summaryStatus (run_env_diagnostics env) = "OK"
      ∨ summaryStatus (run_env_diagnostics env) = "WARN"
      ∨ summaryStatus (run_env_diagnostics env) = "FAIL" := by
  have hv := report_statuses_valid env
  rw [summary_eq env, report_statuses_eq env]
  rw [report_statuses_eq env] at hv
  exact hv _ (pyMaxBy_mem priorityOf _ _)

/-- C1: the trailing summary record's status equals the maximum, by the
severity order OK < WARN < FAIL, of the statuses of all other records; it is
a function of those statuses alone, and it is never OK when any other record
is WARN or FAIL. -/
theorem C1_summary_max (env : Env) :
    (run_env_diagnostics env).getLast?.map Prod.fst = some "summary"
    ∧ summaryStatus (run_env_diagnostics env)
        = specMaxStatus (reportStatuses (run_env_diagnostics env).dropLast)
    ∧ (("WARN" ∈ reportStatuses (run_env_diagnostics env).dropLast
        ∨ "FAIL" ∈ reportStatuses (run_env_diagnostics env).dropLast)
       → summaryStatus (run_env_diagnostics env) ≠ "OK") := by
  have hv := report_statuses_valid env
  have heq : summaryStatus (run_env_diagnostics env)
      = specMaxStatus (reportStatuses (run_env_diagnostics env).dropLast) := by
    rw [summary_eq env, report_statuses_eq env]
    rw [report_statuses_eq env] at hv
    exact pyMaxBy_valid _ _ hv
  refine ⟨rfl, heq, ?_⟩
  intro hWF
  rw [heq]
  unfold specMaxStatus
  by_cases hF : "FAIL" ∈ reportStatuses (run_env_diagnostics env).dropLast
  · rw [if_pos hF]; decide
  · rw [if_neg hF]
    rcases hWF with hW | hF2
    · rw [if_pos hW]; decide
    · exact absurd hF2 hF

/-- Closed instance of C1: a run where node, npm, GPU and the secrets file
all produce warnings has a summary that is not OK. -/
theorem C1_witness : summaryStatus (run_env_diagnostics sampleEnv) ≠ "OK" :=
  (C1_summary_max sampleEnv).2.2 (Or.inl (by decide))

/-- C2: the Command Runner always returns a `(bool, string)` pair; every
fault the subprocess layer raises — missing binary, timeout, or any other
subprocess fault — is converted into `(false, description)`, and a completed
process yields its exit-code test and stripped output. -/
theorem C2_run_command_total :
    (∀ c, ∃ ok out, _run_command c = (ok, out))
    ∧ (∀ c e, _run_command_body c = Except.error e → _run_command c = (false, pyStrExc e))
    ∧ (∀ msg, _run_command (.raises (.fileNotFound msg)) = (false, msg))
    ∧ (∀ msg, _run_command (.raises (.timeoutExpired msg)) = (false, msg))
    ∧ (∀ rc out err, _run_command (.completed rc out err)
        = (rc == 0, pyOr (pyStrip out) (pyStrip err))) := by
  refine ⟨fun c => ⟨(_run_command c).1, (_run_command c).2, rfl⟩, ?_,
    fun msg => rfl, fun msg => rfl, fun rc out err => rfl⟩
  intro c e h
  cases c with
  | completed rc out err => simp [_run_command_body] at h
  | raises e2 =>
      simp only [_run_command_body, Except.error.injEq] at h
      subst h
      rfl

/-- Closed instance of C2: a missing `node` binary yields a failure pair. -/
theorem C2_witness :
    _run_command (.raises (.fileNotFound "[Errno 2] No such file or directory: node")) =
      (false, pyStrExc (.fileNotFound "[Errno 2] No such file or directory: node")) :=
  C2_run_command_total.2.1 _ _ rfl

/-- C3 fails on the code: the engine is not total.  A `.env` file whose
bytes are not valid UTF-8 makes `read_text(encoding="utf-8")` raise
`UnicodeDecodeError` past the `except OSError` of `_check_env_file`, and a
present but non-executable `node` binary makes `subprocess.run` raise
`PermissionError` past the `except (FileNotFoundError,
subprocess.SubprocessError)` of `_run_command`; in both cases the fault
propagates and `run_env_diagnostics` aborts with no report, where the claim
requires every fault inside a probe to become a WARN/FAIL record of a
complete report. -/
theorem C3_uncaught_fault_aborts :
    run_env_diagnostics_run
        ⟨"Linux-x86_64", "3.11.0", .handled (.completed 0 "v20.0.0" ""),
         .handled (.completed 0 "10.0.0" ""), .handled (.completed 0 "pip 24.0" ""),
         .absent, .handled (.completed 1 "" ""),
         .undecodable "0xff in position 0: invalid start byte"⟩
      = .error (.unicodeDecodeError "0xff in position 0: invalid start byte")
    ∧ run_env_diagnostics_run
        ⟨"Linux-x86_64", "3.11.0",
         .uncaught (.permissionError "[Errno 13] Permission denied: node"),
         .handled (.completed 0 "10.0.0" ""), .handled (.completed 0 "pip 24.0" ""),
         .absent, .handled (.completed 1 "" ""), .missing⟩
      = .error (.permissionError "[Errno 13] Permission denied: node") :=
  ⟨rfl, rfl⟩

/-- C5: whenever the pip probe succeeds, the summary stays at OK or WARN —
no combination of node, npm, GPU or secrets-file failures can make it FAIL. -/
theorem C5_pip_gates_fail (env : Env) (h : (_run_command env.pipCmd).1 = true) :
    summaryStatus (run_env_diagnostics env) = "OK"
      ∨ summaryStatus (run_env_diagnostics env) = "WARN" := by
  rw [summary_eq env, report_statuses_eq env, if_pos h]
  rcases gpu_status_valid env.torch env.nvidiaSmi with hg | hg <;>
    rcases env_status_valid env.envFile with he | he <;>
      by_cases hn : (_run_command env.nodeCmd).1 <;>
        by_cases hm : (_run_command env.npmCmd).1 <;>
          simp only [hg, he, hn, hm, if_true, if_false] <;>
            decide

/-- Closed instance of C5: the sample run has pip succeeding and its summary
stays below FAIL. -/
theorem C5_witness :
    summaryStatus (run_env_diagnostics sampleEnv) = "OK"
      ∨ summaryStatus (run_env_diagnostics sampleEnv) = "WARN" :=
  C5_pip_gates_fail sampleEnv (by decide)

/-- C6: every run's report lists exactly the fixed record names in the
fixed insertion order, ending with the summary. -/
theorem C6_report_order (env : Env) :
    (run_env_diagnostics env).map Prod.fst =
      ["system", "python", "node", "npm", "pip", "gpu", "env_file", "summary"] := rfl

/-- C7: the GPU probe is a strict fallback chain — with the library present
a device yields OK naming device 0, no device yields WARN, a query fault
yields WARN carrying the fault text, and the command-line fallback outcome
is never consulted. -/
theorem C7_gpu_fallback :
    (∀ name c, _detect_gpu_status (.present (.cudaAvailable name)) c
        = ⟨"OK", "检测到 GPU: " ++ name⟩)
    ∧ (∀ c, (_detect_gpu_status (.present .cudaUnavailable) c).status = "WARN")
    ∧ (∀ msg c, (_detect_gpu_status (.present (.queryFault msg)) c).status = "WARN"
        ∧ (_detect_gpu_status (.present (.queryFault msg)) c).detail
            = "PyTorch 存在但无法获取 GPU 信息: " ++ msg)
    ∧ (∀ q c₁ c₂, _detect_gpu_status (.present q) c₁ = _detect_gpu_status (.present q) c₂) :=
  ⟨fun name c => rfl, fun c => rfl, fun msg c => ⟨rfl, rfl⟩,
   fun q c₁ c₂ => by cases q <;> rfl⟩

/-- C10: an unrecognized status ranks at priority exactly 2, the same as
FAIL; the rollup picks the first status of maximal severity in record order;
in particular a FAIL preceding an unrecognized status wins. -/
theorem C10_aggregation_ranking :
    (∀ s, s ∉ (["OK", "WARN", "FAIL"] : List String)
        → priorityOf s = 2 ∧ priorityOf "FAIL" = 2)
    ∧ (∀ x xs, ∃ m l₁ l₂, pyMaxBy priorityOf (x :: xs) = m ∧ x :: xs = l₁ ++ m :: l₂
        ∧ (∀ s ∈ l₁, priorityOf s < priorityOf m)
        ∧ (∀ s ∈ l₂, priorityOf s ≤ priorityOf m))
    ∧ pyMaxBy priorityOf ["OK", "FAIL", "BOGUS"] = "FAIL" := by
  refine ⟨?_, fun x xs => pyMaxBy_decomp priorityOf x xs, by decide⟩
  intro s hs
  refine ⟨?_, rfl⟩
  simp only [List.mem_cons, List.not_mem_nil, or_false, not_or] at hs
  obtain ⟨h1, h2, h3⟩ := hs
  have e1 : (s == "OK") = false := beq_eq_false_iff_ne.mpr h1
  have e2 : (s == "WARN") = false := beq_eq_false_iff_ne.mpr h2
  have e3 : (s == "FAIL") = false := beq_eq_false_iff_ne.mpr h3
  simp [priorityOf, STATUS_PRIORITY, List.lookup_cons, e1, e2, e3, List.lookup]

/-- Closed instance of C10: an unrecognized status has the same priority
as FAIL. -/
theorem C10_witness : priorityOf "BOGUS" = 2 ∧ priorityOf "FAIL" = 2 :=
  C10_aggregation_ranking.1 "BOGUS" (by decide)

/-- The scan-with-break loop inspects exactly the first matching line. -/
lemma scanKey_eq_find (lines : List String) :
    scanKey lines =
      (match lines.find? (fun l => pyStartswith (pyStrip l) "OPENAI_API_KEY=") with
       | some l => decide (afterFirstEq (pyStrip l) ≠ "")
       | none => false) := by
  induction lines with
  | nil => rfl
  | cons l rest ih =>
      by_cases h : pyStartswith (pyStrip l) "OPENAI_API_KEY=" = true
      · rw [@List.find?_cons_of_pos String (fun t => pyStartswith (pyStrip t) "OPENAI_API_KEY=") l rest h]
        simp [scanKey, h]
      · rw [@List.find?_cons_of_neg String (fun t => pyStartswith (pyStrip t) "OPENAI_API_KEY=") l rest h]
        simp only [scanKey]
        rw [if_neg (by simpa using h), ih]

/-- C4: the secrets-file probe warns on a missing file, warns (without
propagating) on an unreadable file, and otherwise reports on the first
trimmed line starting with `OPENAI_API_KEY=`: OK for a non-empty value
after the first `=`, WARN when the key line is absent or its value empty. -/
theorem C4_env_file_probe :
    ((_check_env_file .missing).status = "WARN")
    ∧ (∀ msg, (_check_env_file (.unreadable msg)).status = "WARN")
    ∧ (∀ content,
        (_check_env_file (.readable content)).status =
          (match (pySplitlines content).find?
              (fun l => pyStartswith (pyStrip l) "OPENAI_API_KEY=") with
           | some l => if afterFirstEq (pyStrip l) = "" then "WARN" else "OK"
           | none => "WARN"))
    ∧ ((_check_env_file (.readable "OPENAI_API_KEY=abc123\n")).status = "OK")
    ∧ ((_check_env_file (.readable "OPENAI_API_KEY=\n")).status = "WARN")
    ∧ ((_check_env_file (.readable "OTHER=1\n")).status = "WARN") := by
  refine ⟨rfl, fun msg => rfl, ?_, by decide, by decide, by decide⟩
  intro content
  simp only [_check_env_file]
  rw [scanKey_eq_find]
  cases hF : (pySplitlines content).find? (fun l => pyStartswith (pyStrip l) "OPENAI_API_KEY=") with
  | none => simp
  | some l =>
      by_cases hx : afterFirstEq (pyStrip l) = "" <;> simp [hx]

/-- The formatter's color lookup agrees with the specification's mapping. -/
lemma color_lookup_eq_spec (st : String) :
    (List.lookup st COLOR_MAP).getD ((List.lookup "RESET" COLOR_MAP).getD "")
      = specColor st := by
  by_cases h1 : st = "OK"
  · subst h1; rfl
  by_cases h2 : st = "WARN"
  · subst h2; rfl
  by_cases h3 : st = "FAIL"
  · subst h3; rfl
  by_cases h4 : st = "RESET"
  · subst h4; rfl
  · have e1 : (st == "OK") = false := beq_eq_false_iff_ne.mpr h1
    have e2 : (st == "WARN") = false := beq_eq_false_iff_ne.mpr h2
    have e3 : (st == "FAIL") = false := beq_eq_false_iff_ne.mpr h3
    have e4 : (st == "RESET") = false := beq_eq_false_iff_ne.mpr h4
    simp [COLOR_MAP, List.lookup_cons, e1, e2, e3, e4, specColor, h1, h2, h3]

/-- Counterexample to C8 as stated: with the name left-PADDED the claimed
line differs from the line the formatter emits. -/
theorem C8_counterexample :
    display_results [("node", ⟨"OK", "v20.0"⟩)] ≠ [leftPadLine "node" ⟨"OK", "v20.0"⟩] := by
  decide

/-- C8 amended: the colored formatter emits one line per record in report
order — status-mapped color marker, the record name left-JUSTIFIED (padded
on the right) to the fixed minimum width 10, the bracketed status, the
detail, and a reset marker; OK maps to green, WARN to yellow, FAIL to red,
and any other status to the no-color (reset) marker. -/
theorem C8_amended_colored_lines (r : List (String × StatusDetail)) :
    display_results r = r.map (fun p => leftJustLine p.1 p.2) := by
  unfold display_results
  have hfun : (fun p : String × StatusDetail => formatColoredLine p.1 p.2)
      = fun p => leftJustLine p.1 p.2 := by
    funext p
    unfold formatColoredLine leftJustLine
    rw [color_lookup_eq_spec]
    rfl
  rw [hfun]

/-- Stripping the whole key line only right-trims what follows the `=`. -/
lemma stripList_key_line (v : String) :
    stripList (("OPENAI_API_KEY=" ++ v).data)
      = "OPENAI_API_KEY=".data ++ (v.data.reverse.dropWhile Char.isWhitespace).reverse := by
  rw [String.data_append]
  unfold stripList
  rw [dropWhile_append_pos Char.isWhitespace "OPENAI_API_KEY=".data v.data (by decide),
    show "OPENAI_API_KEY=".data.dropWhile Char.isWhitespace = "OPENAI_API_KEY=".data from rfl]
  rw [List.reverse_append]
  by_cases hw : v.data.reverse.dropWhile Char.isWhitespace = []
  · rw [dropWhile_append_neg Char.isWhitespace v.data.reverse "OPENAI_API_KEY=".data.reverse hw, hw]
    decide
  · rw [dropWhile_append_pos Char.isWhitespace v.data.reverse "OPENAI_API_KEY=".data.reverse hw]
    rw [List.reverse_append, List.reverse_reverse]

/-- C9: because each line is whitespace-trimmed before the value is
extracted, a key line whose value is all whitespace counts as empty and
yields WARN, any value with a non-whitespace character yields OK, and the
value extracted internally is the raw remainder of the trimmed line — only
right-trimmed by the line strip, never trimmed on its own. -/
theorem C9_whitespace_value (v : String) (h : '\n' ∉ v.data) :
    ((_check_env_file (.readable ("OPENAI_API_KEY=" ++ v))).status
        = if v.data.all Char.isWhitespace then "WARN" else "OK")
    ∧ afterFirstEq (pyStrip ("OPENAI_API_KEY=" ++ v)) = pyRstrip v := by
  have hnl : '\n' ∉ ("OPENAI_API_KEY=" ++ v).data := by
    rw [String.data_append]
    intro hmem
    rcases List.mem_append.mp hmem with hmem | hmem
    · exact absurd hmem (by decide)
    · exact h hmem
  have hne : ("OPENAI_API_KEY=" ++ v).data ≠ [] := by
    rw [String.data_append]
    intro hemp
    have h0 : "OPENAI_API_KEY=".data = [] := (List.append_eq_nil.mp hemp).1
    exact absurd h0 (by decide)
  have hsplit : pySplitlines ("OPENAI_API_KEY=" ++ v) = ["OPENAI_API_KEY=" ++ v] :=
    pySplitlines_no_newline _ hne hnl
  have hstripStr : pyStrip ("OPENAI_API_KEY=" ++ v)
      = String.mk ("OPENAI_API_KEY=".data
          ++ (v.data.reverse.dropWhile Char.isWhitespace).reverse) := by
    unfold pyStrip
    rw [stripList_key_line]
  have hpre : pyStartswith (pyStrip ("OPENAI_API_KEY=" ++ v)) "OPENAI_API_KEY=" = true := by
    rw [hstripStr]
    exact isPrefixOf_append_self _ _
  have hval : afterFirstEq (pyStrip ("OPENAI_API_KEY=" ++ v)) = pyRstrip v := by
    rw [hstripStr]
    unfold afterFirstEq pyRstrip
    exact congrArg String.mk (afterFirstAux_key _)
  have hscan : scanKey (pySplitlines ("OPENAI_API_KEY=" ++ v))
      = decide (afterFirstEq (pyStrip ("OPENAI_API_KEY=" ++ v)) ≠ "") := by
    rw [hsplit]
    simp only [scanKey]
    rw [if_pos hpre]
  have hws : (v.data.all Char.isWhitespace = true)
      ↔ (v.data.reverse.dropWhile Char.isWhitespace = []) := by
    rw [List.dropWhile_eq_nil_iff]
    constructor
    · intro ha x hx
      exact (List.all_eq_true.mp ha) x (List.mem_reverse.mp hx)
    · intro hd
      exact List.all_eq_true.mpr (fun x hx => hd x (List.mem_reverse.mpr hx))
  refine ⟨?_, hval⟩
  simp only [_check_env_file]
  rw [hscan, hval]
  by_cases hall : v.data.all Char.isWhitespace
  · have hrs : pyRstrip v = "" := by
      unfold pyRstrip
      rw [hws.mp hall]
      rfl
    rw [hrs]
    simp [hall]
  · have hwne : v.data.reverse.dropWhile Char.isWhitespace ≠ [] :=
      fun hh => hall (hws.mpr hh)
    have hrs : pyRstrip v ≠ "" := by
      unfold pyRstrip
      intro hh
      have h1 : (v.data.reverse.dropWhile Char.isWhitespace).reverse = [] :=
        congrArg String.data hh
      exact hwne (by simpa using h1)
    simp [hall, hrs]

/-- Closed instance of C9: a value of three spaces is treated as empty. -/
theorem C9_witness :
    (_check_env_file (.readable ("OPENAI_API_KEY=" ++ "   "))).status
      = if "   ".data.all Char.isWhitespace then "WARN" else "OK" :=
  (C9_whitespace_value "   " (by decide)).1

end HeartLink
